import Mathlib

/-!
Shallow embedding of the pypadre experiment-orchestration code:

* `src/pypadre/core/model/pipeline/parameters.py` (ParameterMap, GridSearch)
* `src/padre/eventhandler.py` (the FIFO event queue)
* `src/pypadre/backend/local/file/project/experiment/execution/run/split/split_file_backend.py`
* `src/padre/ExperimentCreator.py`
* `src/pypadre/app/base_app.py`

Python semantics is modelled explicitly: fallible operations return
`Except PyErr`, Python `None` is `Option.none`, Python dicts are
insertion-ordered association lists.
-/

/-- Python exceptions that the embedded code can raise. -/
inductive PyErr where
  | typeError (msg : String)
  | valueError (msg : String)
  | assertionError
  | attributeError (msg : String)
  | indexError
  | fileNotFoundError (path : String)
  | fileExistsError (path : String)
  deriving DecidableEq

/-- Lookup in an insertion-ordered Python dict (association list), `d.get(k)`:
`some v` when the key is present, `none` (Python `None`) otherwise. -/
def dictGet {κ α : Type} [DecidableEq κ] : List (κ × α) → κ → Option α
  | [], _ => none
  | (k, v) :: rest, key => if k = key then some v else dictGet rest key

/-- Python dict assignment `d[k] = v`: updates the value in place when the key
is present (keeping insertion order), appends a new entry otherwise. -/
def dictSet {κ α : Type} [DecidableEq κ] : List (κ × α) → κ → α → List (κ × α)
  | [], key, v => [(key, v)]
  | (k, w) :: rest, key, v =>
    if k = key then (k, v) :: rest else (k, w) :: dictSet rest key v

/-- Python `''.join(parts)` where each part is a `str` or `None`: raises
`TypeError` as soon as a part is `None` (as `str.join` does), otherwise
concatenates. -/
def pyJoinOpt : List (Option String) → Except PyErr String
  | [] => Except.ok ""
  | none :: _ => Except.error (PyErr.typeError "sequence item: expected str instance, NoneType found")
  | some s :: rest => (pyJoinOpt rest).map (fun t => s ++ t)

/-! ## parameters.py: values, ParameterMap and GridSearch -/

/-- A numeric Python value, kept as an exact fraction `num / den` (`den > 0`)
of the floating-point value the program holds. -/
structure PyNum where
  num : Int
  den : Int
  deriving DecidableEq

/-- A Python value as far as the grid-expansion code can observe it: a number,
a string, a list, or a (string-keyed) dict. -/
inductive PyVal where
  | num (n : PyNum)
  | str (s : String)
  | vlist (xs : List PyVal)
  | vdict (entries : List (String × PyVal))

/-- A component identifier, as used for keys of a `ParameterMap`: a Python
`str` or a non-string object (e.g. an int or uuid). -/
inductive PyId where
  | str (s : String)
  | other (n : Nat)
  deriving DecidableEq

/-- The attribute names of a Python `dict` instance (methods and the common
dunder attributes): `hasattr(d, a)` on a plain dict is `True` exactly for
these names. -/
def dictAttributeNames : List String :=
  ["clear", "copy", "fromkeys", "get", "items", "keys", "pop", "popitem",
   "setdefault", "update", "values",
   "__class__", "__contains__", "__delattr__", "__delitem__", "__dir__",
   "__doc__", "__eq__", "__format__", "__ge__", "__getattribute__",
   "__getitem__", "__gt__", "__hash__", "__init__", "__init_subclass__",
   "__iter__", "__le__", "__len__", "__lt__", "__ne__", "__new__",
   "__reduce__", "__reduce_ex__", "__repr__", "__reversed__", "__setattr__",
   "__setitem__", "__sizeof__", "__str__", "__subclasshook__"]

/-- Python `hasattr(d, identifier)` for a plain dict object `d`: `True` iff
`identifier` names a dict attribute; raises `TypeError` when the identifier
is not a string. -/
def pyHasattrDict (identifier : PyId) : Except PyErr Bool :=
  match identifier with
  | PyId.str s => Except.ok (s ∈ dictAttributeNames)
  | PyId.other _ => Except.error (PyErr.typeError "hasattr(): attribute name must be string")

/-- A value stored in a `ParameterMap` under a component id: a parameter dict,
or a zero-argument callable producing one (modelled by its result). -/
inductive ParamSpec where
  | pdict (d : List (String × PyVal))
  | pcallable (d : List (String × PyVal))

/-- `ParameterMap` of `parameters.py`: wraps the dict passed at construction. -/
structure ParameterMap where
  map : List (PyId × ParamSpec)

/-- `ParameterMap.get` as written in the source:

    if hasattr(self.map, identifier):
        return self.map.get(identifier)
    else:
        return {}

`hasattr` on a dict tests dict *attributes*, not keys; the then-branch result
`self.map.get(identifier)` can be Python `None` (key absent), therefore the
return value is an `Option ParamSpec` where `none` is Python `None` and the
else-branch `{}` is `some (ParamSpec.pdict [])`. -/
def ParameterMap.get (m : ParameterMap) (identifier : PyId) : Except PyErr (Option ParamSpec) := do
  let h ← pyHasattrDict identifier
  if h then
    Except.ok (dictGet m.map identifier)
  else
    Except.ok (some (ParamSpec.pdict []))

/-- `ParameterMap.get_for(component)` delegates to `get(component.id)`. -/
def ParameterMap.get_for (m : ParameterMap) (componentId : PyId) : Except PyErr (Option ParamSpec) :=
  ParameterMap.get m componentId

/-- Iterating a Python object (as `itertools.product` does with each of its
arguments): `None` and numbers are not iterable (`TypeError`), a list yields
its elements, a dict yields its keys, a string yields its characters. -/
def pyIter : Option PyVal → Except PyErr (List PyVal)
  | none => Except.error (PyErr.typeError "NoneType object is not iterable")
  | some (PyVal.num _) => Except.error (PyErr.typeError "int object is not iterable")
  | some (PyVal.str s) => Except.ok (s.data.map (fun c => PyVal.str (String.mk [c])))
  | some (PyVal.vlist xs) => Except.ok xs
  | some (PyVal.vdict entries) => Except.ok (entries.map (fun e => PyVal.str e.1))

/-- Cartesian product of axes in `itertools.product` order: the rightmost
axis varies fastest. -/
def cartesianProduct : List (List PyVal) → List (List PyVal)
  | [] => [[]]
  | xs :: rest => xs.flatMap (fun x => (cartesianProduct rest).map (fun t => x :: t))

/-- The object returned by `itertools.product(*master_list)`: a lazy generator
over the combinations.  It is *not* a list. -/
structure ProductObj where
  combos : List (List PyVal)

/-- Python `len` applied to an `itertools.product` object: always raises
`TypeError` (generators do not support `len`). -/
def ProductObj.pyLen (_ : ProductObj) : Except PyErr Nat :=
  Except.error (PyErr.typeError "object of type itertools.product has no len()")

/-- `itertools.product(*master_list)`: eagerly materialises each argument
(raising `TypeError` on a non-iterable such as `None`), then produces the
generator of combinations. -/
def pyProduct (master_list : List (Option PyVal)) : Except PyErr ProductObj := do
  let axes ← master_list.mapM pyIter
  Except.ok (ProductObj.mk (cartesianProduct axes))

/-- The body of the `for parameter in parameters` loop of
`GridSearch.create_combinations`, acting on `(master_list, params_list)`:

    parameter_values = param_dict.get(parameter)
    parameter_values = [parameter_values] if isinstance(parameter_values, dict) else parameter_values
    master_list.append(parameter_values)
    params_list.append(parameter)

where `param_dict` is the *empty* dict created at the top of the function. -/
def create_combinations_step (param_dict : List (String × PyVal))
    (acc : List (Option PyVal) × List String) (parameter : String) :
    List (Option PyVal) × List String :=
  let parameter_values := dictGet param_dict parameter
  let parameter_values :=
    match parameter_values with
    | some (PyVal.vdict d) => some (PyVal.vlist [PyVal.vdict d])
    | v => v
  (acc.1 ++ [parameter_values], acc.2 ++ [parameter])

/-- `GridSearch.create_combinations(parameters)` as written in the source:
initialises `param_dict = dict()` (empty), iterates over the keys of
`parameters`, looks each key up **in the empty `param_dict`** (so every
looked-up value is Python `None`), appends it to `master_list`, and finally
builds `itertools.product(*master_list)`. -/
def create_combinations (parameters : List (String × PyVal)) :
    Except PyErr (ProductObj × List String) := do
  let param_dict : List (String × PyVal) := []
  let (master_list, params_list) :=
    (parameters.map Prod.fst).foldl (create_combinations_step param_dict) ([], [])
  let grid ← pyProduct master_list
  Except.ok (grid, params_list)

/-- The `HyperParameterSearch` computation constructed at the end of
`GridSearch.call`, reduced to the fields the claims mention. -/
structure HyperParameterSearch where
  parameters : ProductObj
  parameter_names : List String
  branch : Bool

/-- `GridSearch.call`: resolves the component's parameters through the map
(invoking a callable spec), asserts the result is a dict, expands the grid
with `create_combinations`, and computes `branch=len(grid) > 1` — where
`grid` is the `itertools.product` object returned by `create_combinations`. -/
def GridSearch.call (parameter_map : ParameterMap) (componentId : PyId) :
    Except PyErr HyperParameterSearch := do
  let parameters ← ParameterMap.get_for parameter_map componentId
  let hyperparameters ←
    match parameters with
    | some (ParamSpec.pdict d) => Except.ok d
    | some (ParamSpec.pcallable d) => Except.ok d
    | none => Except.error PyErr.assertionError
  let (grid, params_list) ← create_combinations hyperparameters
  let n ← ProductObj.pyLen grid
  Except.ok (HyperParameterSearch.mk grid params_list (decide (n > 1)))

/-! ## eventhandler.py: the FIFO event queue -/

/-- An event record pushed on the queue.  The `args` mapping plays no role in
the dispatch order, so only the `EVENT_NAME` is kept. -/
structure PyEvent where
  name : String
  deriving DecidableEq

/-- The `EVENT_HANDLER_DICT`: maps an event name to its list of registered
handler functions, or `none` when the name has no entry.  A handler is
modelled by its observable effect on the bus: the list of events it pushes
(via `add_event_to_queue`, hence through the `event_queue` setter) during its
invocation. -/
def HandlerTable : Type := String → Option (List (List PyEvent))

/-- The state of the `event_queue` object, plus the observable history:
`dispatched` records, in order, each event whose handlers were invoked, and
`unhandled` records each event reported as `UNHANDLED EVENT ENCOUNTERED`. -/
structure BusState where
  event_queue : List PyEvent
  emptying_queue : Bool
  dispatched : List PyEvent
  unhandled : List PyEvent
  deriving DecidableEq

/-- `event_queue.process_events`, by fuel-indexed recursion on the drain loop:

    while self._event_queue:
        self._emptying_queue = True
        event = self._event_queue.pop(0)
        event_handlers = EVENT_HANDLER_DICT.get(event['EVENT_NAME'], None)
        if event_handlers is None:
            print('UNHANDLED EVENT ENCOUNTERED')
            return                      # note: _emptying_queue stays True
        if len(event_handlers) > 1:
            for event_handler in event_handlers: event_handler(args=args)
        else:
            event_handlers[0](args)     # IndexError when the list is empty
    self._emptying_queue = False

Handler invocation appends the handler's pushed events to the queue (the
setter sees `_emptying_queue == True` during the drain, so it only appends).
The single-handler and multi-handler branches have the same observable
effect; an empty handler list raises `IndexError` at `event_handlers[0]`. -/
def process_events (H : HandlerTable) : Nat → BusState → Except PyErr BusState
  | 0, s => Except.ok s
  | fuel + 1, s =>
    match s.event_queue with
    | [] => Except.ok { s with emptying_queue := false }
    | event :: rest =>
      let s := { s with emptying_queue := true, event_queue := rest }
      match H event.name with
      | none => Except.ok { s with unhandled := s.unhandled ++ [event] }
      | some handlers =>
        if handlers.isEmpty then
          Except.error PyErr.indexError
        else
          process_events H fuel
            { s with event_queue := s.event_queue ++ handlers.flatten,
                     dispatched := s.dispatched ++ [event] }

/-- The `event_queue` property setter (reached from `add_event_to_queue`):

    self._event_queue.append(event)
    if not self._emptying_queue:
        self.process_events()
-/
def enqueue_event (H : HandlerTable) (fuel : Nat) (s : BusState) (e : PyEvent) :
    Except PyErr BusState :=
  let s := { s with event_queue := s.event_queue ++ [e] }
  if s.emptying_queue then Except.ok s else process_events H fuel s

/-! ## split_file_backend.py: PadreSplitFileBackend -/

/-- A split entity as the file backend sees it: an optional id and the
metadata mapping that `put` serialises to `metadata.json`. -/
structure SplitEntity where
  id : Option String
  metadata : List (String × String)
  deriving DecidableEq

/-- The observable slice of the filesystem under the backend's `root_dir`:
the set of existing directories and the written files, a file being
`(directory, filename, serialised content)`. -/
structure SplitFS where
  dirs : List String
  files : List (String × String × List (String × String))
  deriving DecidableEq

/-- `self.root_dir = os.path.join(self._parent.root_dir, "splits")`, with the
parent's root abstracted to `"root"`. -/
def split_root_dir : String := "root/splits"

/-- `to_folder_name(split) = split.id`. -/
def to_folder_name (split : SplitEntity) : Option String := split.id

/-- Modelled from the spec: `get_dir` of the base file backend
(`i_base_file_backend.py` is not under `src/`) maps a folder name to the
backend-root-relative directory path; per the spec, entity directories are
"created lazily on first write", so `get_dir` only computes the path and does
not create the directory. -/
def get_dir (folder : String) : String := split_root_dir ++ "/" ++ folder

/-- `shutil.rmtree(directory)`: removes the directory and everything under
it; raises `FileNotFoundError` when the directory does not exist. -/
def rmtree (fs : SplitFS) (dir : String) : Except PyErr SplitFS :=
  if dir ∈ fs.dirs then
    Except.ok (SplitFS.mk (fs.dirs.filter (fun d => d ≠ dir))
      (fs.files.filter (fun f => f.1 ≠ dir)))
  else
    Except.error (PyErr.fileNotFoundError dir)

/-- `os.mkdir(directory)`: creates the directory; raises `FileExistsError`
when it already exists. -/
def py_mkdir (fs : SplitFS) (dir : String) : Except PyErr SplitFS :=
  if dir ∈ fs.dirs then Except.error (PyErr.fileExistsError dir)
  else Except.ok (SplitFS.mk (fs.dirs ++ [dir]) fs.files)

/-- `self.write_file(directory, self.METADATA_FILE, split.metadata)`:
serialises the metadata into `metadata.json` inside `directory`. -/
def write_file (fs : SplitFS) (dir fname : String) (content : List (String × String)) : SplitFS :=
  SplitFS.mk fs.dirs (fs.files ++ [(dir, fname, content)])

/-- `PadreSplitFileBackend.put(split, allow_overwrite=False)` as written:

    if split.id is None: split.id = uuid.uuid4()
    directory = self.get_dir(self.to_folder_name(split))
    if os.path.exists(directory) and not allow_overwrite:
        raise ValueError(...)
    else:
        shutil.rmtree(directory)
    os.mkdir(directory)
    self.write_file(directory, self.METADATA_FILE, split.metadata)

The generated uuid is supplied as `freshId`. -/
def PadreSplitFileBackend.put (fs : SplitFS) (split : SplitEntity) (freshId : String)
    (allow_overwrite : Bool) : Except PyErr (SplitFS × SplitEntity) := do
  let split := if split.id.isNone then SplitEntity.mk (some freshId) split.metadata else split
  let directory := get_dir ((to_folder_name split).getD freshId)
  if directory ∈ fs.dirs ∧ ¬ allow_overwrite then
    Except.error (PyErr.valueError "Split already exists. Overwriting not explicitly allowed. Set allow_overwrite=True")
  else do
    let fs ← rmtree fs directory
    let fs ← py_mkdir fs directory
    Except.ok (write_file fs directory "metadata.json" split.metadata, split)

/-- `PadreSplitFileBackend.get(uid)`: the body is `pass`, so the call always
returns Python `None` regardless of the store contents. -/
def PadreSplitFileBackend.get (_ : SplitFS) (_ : String) : Option (List (String × String)) :=
  none

/-! ## ExperimentCreator.py -/

/-- `np.mod(t, 1) == 0` for one target value: `t` is integer-valued. -/
def PyNum.isIntValued (t : PyNum) : Bool := t.num % t.den == 0

/-- `np.all(np.mod(dataset.targets(), 1) == 0)`: every target value is
integer-valued (vacuously true for an empty target array). -/
def np_all_integral (targets : List PyNum) : Bool :=
  targets.all PyNum.isIntValued

/-- A dataset, exposing the `targets()` sequence the admission guard reads. -/
structure Dataset where
  targets : List PyNum
  deriving DecidableEq

/-- A workflow (scikit pipeline): the ordered names of its `named_steps`. -/
structure Workflow where
  named_steps : List String
  deriving DecidableEq

/-- One entry of the `name_mappings` table for an estimator: its `'type'`
field (`none` when the entry has no `'type'` key, read via
`.get('type', None)`). -/
structure EstInfo where
  etype : Option String
  deriving DecidableEq

/-- The ambient `name_mappings` dict (`padre/visitors/mappings.py`, outside
`src/`), abstracted as a lookup: `none` models an estimator name with no
entry, in which case `name_mappings.get(est)` is Python `None`. -/
def NameMappings : Type := String → Option EstInfo

/-- The `dataset` argument of `create_experiment`: either a dataset name
(resolved through `get_local_dataset`) or a dataset object. -/
inductive DatasetArg where
  | byName (s : String)
  | obj (d : Dataset)

/-- A structured message sent to `default_logger`. -/
inductive LogMsg where
  | warn (source msg : String)
  | error (source msg : String)
  | info (source msg : String)
  deriving DecidableEq

/-- The `data_dict` stored in `self._experiments[name]` on successful
creation (the backend is abstracted to a token). -/
structure ExperimentData where
  description : String
  dataset : Option Dataset
  workflow : Workflow
  backend : String
  deriving DecidableEq

/-- Abstract parameter specification passed as `params` and stored in
`self._param_value_dict`. -/
def ParamsV : Type := List (String × PyVal)

/-- The mutable registries of an `ExperimentCreator` instance:
`_experiments` and `_param_value_dict` (keys are the `name` arguments, which
may be Python `None`). -/
structure CreatorState where
  experiments : List (Option String × ExperimentData)
  param_value_dict : List (Option String × ParamsV)

/-- `ExperimentCreator.get_local_dataset(name)`: logs and returns `None` for
a missing name or an unknown name, otherwise returns the loaded dataset.
Dataset loading itself (`load_sklearn_toys`, `ds_import.py`) is outside
`src/` and abstracted as `localData`. -/
def get_local_dataset (localData : String → Option Dataset) (name : Option String) :
    Option Dataset × List LogMsg :=
  match name with
  | none => (none, [LogMsg.error "ExperimentCreator.get_local_dataset" "Dataset name is empty"])
  | some s =>
    match localData s with
    | some d => (some d, [])
    | none => (none, [LogMsg.error "ExperimentCreator.get_local_dataset" (s ++ " Local Dataset not found")])

/-- The classifier-vs-continuous-targets loop of `create_experiment`:

    for estimator in workflow.named_steps:
        if name_mappings.get(estimator).get('type', None) == 'Classification':
            default_logger.warn(...); return None

Returns the first estimator typed `'Classification'`, `none` when there is
none; raises `AttributeError` when an estimator has no `name_mappings` entry
(`None.get('type', None)`). -/
def classifier_guard (nm : NameMappings) : List String → Except PyErr (Option String)
  | [] => Except.ok none
  | est :: rest =>
    match nm est with
    | none => Except.error (PyErr.attributeError "NoneType object has no attribute get")
    | some info =>
      if info.etype = some "Classification" then Except.ok (some est)
      else classifier_guard nm rest

/-- The corresponding loop of `do_experiments`, which does *not* return
early: it warns for every `'Classification'`-typed estimator and clears the
admission flag.  Returns all such estimators, in pipeline order. -/
def classification_estimators (nm : NameMappings) : List String → Except PyErr (List String)
  | [] => Except.ok []
  | est :: rest =>
    match nm est with
    | none => Except.error (PyErr.attributeError "NoneType object has no attribute get")
    | some info => do
      let tail ← classification_estimators nm rest
      Except.ok (if info.etype = some "Classification" then est :: tail else tail)

/-- `ExperimentCreator.create_experiment(name, description, dataset,
workflow, backend, params)`, following the source line by line.  The result
is the updated registries plus the emitted log messages; the Python function
itself always returns `None`.  An `Except.error` models an exception
propagating to the caller (in the one reachable raising site after the
registry write, the post-raise registry state is not observed by any claim,
so the error result carries no state). -/
def create_experiment (nm : NameMappings) (localData : String → Option Dataset)
    (st : CreatorState) (name : Option String) (description : Option String)
    (dataset : Option DatasetArg) (workflow : Option Workflow)
    (backend : Option String) (params : Option ParamsV) :
    Except PyErr (CreatorState × List LogMsg) := do
  let logs : List LogMsg :=
    if name.isNone then
      [LogMsg.warn "ExperimentCreator.create_experiment"
        "Experiment name is missing, a name will be generated by the system"]
    else []
  match description, workflow, backend with
  | some desc, some wf, some be =>
    let (dataset, logs) : Option Dataset × List LogMsg :=
      match dataset with
      | some (DatasetArg.byName s) =>
        let (d, l) := get_local_dataset localData (some s)
        (d, logs ++ l)
      | some (DatasetArg.obj d) => (some d, logs)
      | none => (none, logs)
    let guard ←
      match dataset with
      | some d =>
        if np_all_integral d.targets then Except.ok (none : Option String)
        else classifier_guard nm wf.named_steps
      | none => Except.ok (none : Option String)
    match guard with
    | some est =>
      Except.ok (st, logs ++ [LogMsg.warn "ExperimentCreator.create_experiment"
        ("Estimator " ++ est ++ " cannot work on continuous data. Experiment will be discarded")])
    | none =>
      if (dictGet st.experiments name).isNone then do
        let data := ExperimentData.mk desc dataset wf be
        let st := CreatorState.mk (dictSet st.experiments name data)
          (match params with
           | some p => dictSet st.param_value_dict name p
           | none => st.param_value_dict)
        let m ← pyJoinOpt [name, some " created successfully!"]
        Except.ok (st, logs ++ [LogMsg.info "ExperimentCreator.create_experiment" m])
      else do
        let logs := logs ++ [LogMsg.error "ExperimentCreator.create_experiment" "Error creating experiment"]
        let m ← pyJoinOpt [some "Experiment name: ", name,
          some " already present. Experiment name should be unique"]
        Except.ok (st, logs ++ [LogMsg.error "ExperimentCreator.create_experiment" m])
  | _, _, _ => do
    let logs ←
      if description.isNone then do
        let m ← pyJoinOpt [some "Description is missing for experiment:", name]
        Except.ok (logs ++ [LogMsg.error "ExperimentCreator.create_experiment" m])
      else Except.ok logs
    let logs ←
      if backend.isNone then do
        let m ← pyJoinOpt [some "Backend is missing for experiment:", name]
        Except.ok (logs ++ [LogMsg.error "ExperimentCreator.get_local_dataset" m])
      else Except.ok logs
    Except.ok (st, logs)

/-- Outcome of one iteration of the per-dataset loop of `do_experiments`:
either the pairing is skipped (`continue`) or an `Experiment` object is
constructed with the given derived name. -/
inductive DoOutcome where
  | skipped
  | constructed (exName : String)
  deriving DecidableEq

/-- The body of the inner `for dataset in datasets` loop of
`ExperimentCreator.do_experiments`, for a registered experiment `expName`
with stored data `ed` and a dataset name `dsName`:

    desc = ''.join([description, 'with dataset ', dataset])
    data = self.get_local_dataset(dataset)
    if data is None: continue
    if not np.all(np.mod(data.targets(), 1) == 0):
        for estimator in workflow.named_steps:
            if name_mappings.get(estimator).get('type', None) == 'Classification':
                flag = False; default_logger.warn(...)
    if not flag: continue
    ex = Experiment(name=''.join([experiment, '(', dataset, ')']), ...)
-/
def do_experiment_dataset (nm : NameMappings) (localData : String → Option Dataset)
    (ed : ExperimentData) (expName dsName : String) :
    Except PyErr (DoOutcome × List LogMsg) := do
  let (data, logs) := get_local_dataset localData (some dsName)
  match data with
  | none => Except.ok (DoOutcome.skipped, logs)
  | some d =>
    let (flag, logs) ←
      if np_all_integral d.targets then Except.ok (true, logs)
      else do
        let ests ← classification_estimators nm ed.workflow.named_steps
        Except.ok (ests.isEmpty,
          logs ++ ests.map (fun est => LogMsg.warn "ExperimentCreator.do_experiments"
            ("Estimator " ++ est ++ " cannot work on continuous data.This dataset will be disregarded")))
    if flag then
      Except.ok (DoOutcome.constructed (expName ++ "(" ++ dsName ++ ")"), logs)
    else
      Except.ok (DoOutcome.skipped, logs)

/-! ## base_app.py: IBaseApp -/

/-- One configured backend, exposing the `get` of the storeable contract. -/
structure AppBackend where
  get : String → Option (List (String × String))

/-- `IBaseApp.get(id)` as written:

    for b in self.backends:
        backend: IStoreable = b
        backend.get(id)

Every backend's `get` is invoked but no result is kept, and the function
body has no `return`, so the call evaluates to Python `None`. -/
def IBaseApp.get (backends : List AppBackend) (id : String) :
    Option (List (String × String)) :=
  let _ := backends.map (fun b => b.get id)
  none

/-! ## Concrete instances used by the theorems -/

/-- The parameter mapping of the grid-expansion example:
`{"C": [0.1, 0.2], "kernel": ["rbf", "linear"]}`. -/
def gridParams : List (String × PyVal) :=
  [("C", PyVal.vlist [PyVal.num (PyNum.mk 1 10), PyVal.num (PyNum.mk 2 10)]),
   ("kernel", PyVal.vlist [PyVal.str "rbf", PyVal.str "linear"])]

/-- A parameter spec registered for component id `"comp1"`. -/
def comp1Spec : ParamSpec :=
  ParamSpec.pdict [("C", PyVal.vlist [PyVal.num (PyNum.mk 1 1)])]

/-- A `ParameterMap` with a spec registered under the key `"comp1"`. -/
def demoParameterMap : ParameterMap := ParameterMap.mk [(PyId.str "comp1", comp1Spec)]

/-- Handler table for the event-ordering scenarios: the handler of `"A"`
enqueues `"D"`; `"B"`, `"C"`, `"D"` and `"X"` have one handler that enqueues
nothing; every other name (in particular `"U"`) is unregistered. -/
def demoHandlers : HandlerTable := fun n =>
  if n = "A" then some [[PyEvent.mk "D"]]
  else if n = "B" ∨ n = "C" ∨ n = "D" ∨ n = "X" then some [[]]
  else none

/-! ## Helper lemmas -/

/-- If some target value is not integer-valued, `np.all(np.mod(targets, 1) == 0)`
is false. -/
theorem np_all_integral_eq_false (targets : List PyNum) (t : PyNum) (ht : t ∈ targets)
    (hT : t.isIntValued = false) : np_all_integral targets = false := by
  simp [np_all_integral, List.all_eq_false]
  exact ⟨t, ht, by simp [hT]⟩

/-- When every pipeline step has a `name_mappings` entry and some step is typed
`'Classification'`, the guard loop of `create_experiment` returns the first
such step (so the experiment is discarded). -/
theorem classifier_guard_finds (nm : NameMappings) (steps : List String)
    (hdom : ∀ est ∈ steps, (nm est).isSome)
    (hcls : ∃ est ∈ steps, ∃ i, nm est = some i ∧ i.etype = some "Classification") :
    ∃ est ∈ steps, classifier_guard nm steps = Except.ok (some est) := by
  induction steps with
  | nil => simp at hcls
  | cons e rest ih =>
    obtain ⟨i, hi⟩ := Option.isSome_iff_exists.mp (hdom e (by simp))
    by_cases hty : i.etype = some "Classification"
    · exact ⟨e, by simp, by simp [classifier_guard, hi, hty]⟩
    · obtain ⟨w, hw, j, hj, hjty⟩ := hcls
      rcases List.mem_cons.mp hw with hwe | hwr
      · subst hwe
        rw [hj] at hi
        cases hi
        exact absurd hjty hty
      · obtain ⟨est, hm, hg⟩ := ih (fun x hx => hdom x (List.mem_cons_of_mem _ hx))
          ⟨w, hwr, j, hj, hjty⟩
        exact ⟨est, List.mem_cons_of_mem _ hm, by simp [classifier_guard, hi, hty, hg]⟩

/-- When every pipeline step has a `name_mappings` entry, the guard loop of
`do_experiments` succeeds and collects exactly the `'Classification'`-typed
steps. -/
theorem classification_estimators_ok (nm : NameMappings) (steps : List String)
    (hdom : ∀ est ∈ steps, (nm est).isSome) :
    ∃ l, classification_estimators nm steps = Except.ok l ∧
      (∀ est, est ∈ l ↔ est ∈ steps ∧ ∃ i, nm est = some i ∧ i.etype = some "Classification") := by
  induction steps with
  | nil => exact ⟨[], rfl, by simp⟩
  | cons e rest ih =>
    obtain ⟨i, hi⟩ := Option.isSome_iff_exists.mp (hdom e (by simp))
    obtain ⟨l, hl, hiff⟩ := ih (fun x hx => hdom x (List.mem_cons_of_mem _ hx))
    by_cases hty : i.etype = some "Classification"
    · refine ⟨e :: l, by simp [classification_estimators, hi, hl, hty, Bind.bind, Except.bind], ?_⟩
      intro est
      constructor
      · intro hm
        rcases List.mem_cons.mp hm with h1 | h2
        · subst h1; exact ⟨by simp, i, hi, hty⟩
        · obtain ⟨hmem, hx⟩ := (hiff est).mp h2
          exact ⟨List.mem_cons_of_mem _ hmem, hx⟩
      · intro ⟨hmem, j, hj, hjty⟩
        rcases List.mem_cons.mp hmem with h1 | h2
        · subst h1; simp
        · exact List.mem_cons_of_mem _ ((hiff est).mpr ⟨h2, j, hj, hjty⟩)
    · refine ⟨l, by simp [classification_estimators, hi, hl, hty, Bind.bind, Except.bind], ?_⟩
      intro est
      constructor
      · intro hm
        obtain ⟨hmem, hx⟩ := (hiff est).mp hm
        exact ⟨List.mem_cons_of_mem _ hmem, hx⟩
      · intro ⟨hmem, j, hj, hjty⟩
        rcases List.mem_cons.mp hmem with h1 | h2
        · subst h1
          rw [hj] at hi
          cases hi
          exact absurd hjty hty
        · exact (hiff est).mpr ⟨h2, j, hj, hjty⟩

/-! ## Claim theorems -/

/-- C1: the claim says `create_combinations` on
`{"C": [0.1, 0.2], "kernel": ["rbf", "linear"]}` yields the 4 Cartesian
combinations with names `["C", "kernel"]`.  The code instead looks every
parameter up in the freshly created empty `param_dict`, so each axis is
Python `None` and `itertools.product(*master_list)` raises `TypeError`: grid
expansion crashes on every non-empty parameter mapping. -/
theorem C1_create_combinations_raises :
    create_combinations gridParams =
      Except.error (PyErr.typeError "NoneType object is not iterable") := rfl

/-- C2: with events `A, B, C` pending on the queue, draining dispatches them
in FIFO order, and the event `D` enqueued by `A`'s handler is appended and
dispatched after the batch, giving dispatch order `A, B, C, D` with the queue
empty and the drain flag cleared; moreover an event enqueued while the drain
flag is set is only appended (no nested dispatch). -/
theorem C2_event_dispatch_order :
    process_events demoHandlers 8
      (BusState.mk [PyEvent.mk "A", PyEvent.mk "B", PyEvent.mk "C"] true [] []) =
      Except.ok (BusState.mk [] false
        [PyEvent.mk "A", PyEvent.mk "B", PyEvent.mk "C", PyEvent.mk "D"] []) ∧
    enqueue_event demoHandlers 8 (BusState.mk [PyEvent.mk "X"] true [] []) (PyEvent.mk "E") =
      Except.ok (BusState.mk [PyEvent.mk "X", PyEvent.mk "E"] true [] []) :=
  ⟨rfl, rfl⟩

/-- C3 counterexample: the claim says that after an unhandled event every
later queued event is still dispatched.  Draining `[U, B]` where `U` has no
handler reports `U` and returns with `B` still queued, nothing dispatched and
the `_emptying_queue` flag left `True`; enqueuing `C` afterwards only appends
it (the stuck flag suppresses all further draining), so neither `B` nor `C`
is ever dispatched. -/
theorem C3_unhandled_event_loses_subsequent :
    process_events demoHandlers 5
      (BusState.mk [PyEvent.mk "U", PyEvent.mk "B"] false [] []) =
      Except.ok (BusState.mk [PyEvent.mk "B"] true [] [PyEvent.mk "U"]) ∧
    enqueue_event demoHandlers 5
      (BusState.mk [PyEvent.mk "B"] true [] [PyEvent.mk "U"]) (PyEvent.mk "C") =
      Except.ok (BusState.mk [PyEvent.mk "B", PyEvent.mk "C"] true [] [PyEvent.mk "U"]) :=
  ⟨rfl, rfl⟩

/-- C3 amended: an event whose name has no registered handler is reported and
the bus does not raise, but the whole drain returns at that point: every
event after it stays in the queue undispatched, and because the
`_emptying_queue` flag is never reset, every later enqueued event is only
appended and never dispatched. -/
theorem C3_unhandled_event_aborts_drain (H : HandlerTable) (fuel : Nat) (s : BusState)
    (u : PyEvent) (rest : List PyEvent)
    (hq : s.event_queue = u :: rest) (hH : H u.name = none) :
    process_events H (fuel + 1) s =
      Except.ok (BusState.mk rest true s.dispatched (s.unhandled ++ [u])) ∧
    ∀ (fuel2 : Nat) (e : PyEvent),
      enqueue_event H fuel2 (BusState.mk rest true s.dispatched (s.unhandled ++ [u])) e =
        Except.ok (BusState.mk (rest ++ [e]) true s.dispatched (s.unhandled ++ [u])) := by
  constructor
  · simp [process_events, hq, hH]
  · intro fuel2 e
    simp [enqueue_event]

/-- Witness for the amended C3 theorem at the concrete queue `[U, B]`. -/
theorem C3_unhandled_event_aborts_drain_witness :
    process_events demoHandlers 5
      (BusState.mk [PyEvent.mk "U", PyEvent.mk "B"] false [] []) =
      Except.ok (BusState.mk [PyEvent.mk "B"] true [] [PyEvent.mk "U"]) ∧
    ∀ (fuel2 : Nat) (e : PyEvent),
      enqueue_event demoHandlers fuel2
        (BusState.mk [PyEvent.mk "B"] true [] [PyEvent.mk "U"]) e =
        Except.ok (BusState.mk ([PyEvent.mk "B"] ++ [e]) true [] [PyEvent.mk "U"]) :=
  C3_unhandled_event_aborts_drain demoHandlers 4
    (BusState.mk [PyEvent.mk "U", PyEvent.mk "B"] false [] [])
    (PyEvent.mk "U") [PyEvent.mk "B"] rfl rfl

/-- C4: the claim says the first `put` of a fresh split succeeds, a second
`put` with `allow_overwrite=False` raises a conflict error, and with
`allow_overwrite=True` the overwritten content is retrievable via `get`.  In
the code the conflict `ValueError` is raised only when the directory already
exists, but in every other case the else-branch runs `shutil.rmtree` on the
still-missing directory, so the first `put` of a fresh split always raises
`FileNotFoundError` (for both overwrite settings); and `get` is a `pass`
stub returning `None`, so no written content is ever retrievable. -/
theorem C4_split_put_fresh_raises :
    PadreSplitFileBackend.put (SplitFS.mk [] [])
      (SplitEntity.mk (some "s1") [("k", "v")]) "fresh" false =
      Except.error (PyErr.fileNotFoundError "root/splits/s1") ∧
    PadreSplitFileBackend.put (SplitFS.mk [] [])
      (SplitEntity.mk (some "s1") [("k", "v")]) "fresh" true =
      Except.error (PyErr.fileNotFoundError "root/splits/s1") ∧
    PadreSplitFileBackend.put (SplitFS.mk ["root/splits/s1"] [])
      (SplitEntity.mk (some "s1") [("k", "v")]) "fresh" false =
      Except.error (PyErr.valueError
        "Split already exists. Overwriting not explicitly allowed. Set allow_overwrite=True") ∧
    PadreSplitFileBackend.put (SplitFS.mk ["root/splits/s1"] [])
      (SplitEntity.mk (some "s1") [("k", "v")]) "fresh" true =
      Except.ok (SplitFS.mk ["root/splits/s1"]
        [("root/splits/s1", "metadata.json", [("k", "v")])],
        SplitEntity.mk (some "s1") [("k", "v")]) ∧
    PadreSplitFileBackend.get
      (SplitFS.mk ["root/splits/s1"] [("root/splits/s1", "metadata.json", [("k", "v")])])
      "s1" = none :=
  ⟨rfl, rfl, rfl, rfl, rfl⟩

/-- C5: for a dataset all of whose target values are non-integer-valued and a
workflow containing a `'Classification'`-typed component (every step having a
`name_mappings` entry), `create_experiment` logs a warning and returns with
the registries unchanged (no experiment admitted), and the per-dataset loop
body of `do_experiments` logs warnings and skips the pairing, constructing no
`Experiment`. -/
theorem C5_continuous_targets_reject_classifier (nm : NameMappings)
    (localData : String → Option Dataset) (st : CreatorState) (n desc be : String)
    (wf : Workflow) (d : Dataset) (ps : Option ParamsV) (ed : ExperimentData)
    (dsName : String)
    (hne : d.targets ≠ [])
    (hT : ∀ t ∈ d.targets, t.isIntValued = false)
    (hdom : ∀ est ∈ wf.named_steps, (nm est).isSome)
    (hcls : ∃ est ∈ wf.named_steps, ∃ i, nm est = some i ∧ i.etype = some "Classification")
    (hed : ed.workflow = wf) (hld : localData dsName = some d) :
    (∃ est ∈ wf.named_steps,
      create_experiment nm localData st (some n) (some desc) (some (DatasetArg.obj d))
        (some wf) (some be) ps =
      Except.ok (st, [LogMsg.warn "ExperimentCreator.create_experiment"
        ("Estimator " ++ est ++ " cannot work on continuous data. Experiment will be discarded")])) ∧
    (∃ ests, ests ≠ [] ∧
      do_experiment_dataset nm localData ed n dsName =
      Except.ok (DoOutcome.skipped, ests.map (fun est => LogMsg.warn "ExperimentCreator.do_experiments"
        ("Estimator " ++ est ++ " cannot work on continuous data.This dataset will be disregarded")))) := by
  obtain ⟨t, htmem⟩ := List.exists_mem_of_ne_nil d.targets hne
  have hfalse : np_all_integral d.targets = false :=
    np_all_integral_eq_false d.targets t htmem (hT t htmem)
  constructor
  · obtain ⟨est, hm, hg⟩ := classifier_guard_finds nm wf.named_steps hdom hcls
    refine ⟨est, hm, ?_⟩
    simp [create_experiment, hfalse, hg, Bind.bind, Except.bind]
  · obtain ⟨l, hl, hiff⟩ := classification_estimators_ok nm wf.named_steps hdom
    obtain ⟨w, hw, j, hj, hjty⟩ := hcls
    have hwl : w ∈ l := (hiff w).mpr ⟨hw, j, hj, hjty⟩
    have hlne : l ≠ [] := by intro h; subst h; simp at hwl
    refine ⟨l, hlne, ?_⟩
    have hle : l.isEmpty = false := by
      cases l with
      | nil => exact absurd rfl hlne
      | cons a as => rfl
    simp [do_experiment_dataset, get_local_dataset, hld, hfalse, hed, hl, hle,
      Bind.bind, Except.bind]

/-- The `name_mappings` table used in witnesses: `"SVC"` is an estimator of
type `'Classification'`, every other name has no entry. -/
def nmDemo : NameMappings := fun s =>
  if s = "SVC" then some (EstInfo.mk (some "Classification")) else none

/-- Witness dataset with the continuous targets `[1.5, 2.3, 0.9]`. -/
def dsDemo : Dataset := Dataset.mk [PyNum.mk 3 2, PyNum.mk 23 10, PyNum.mk 9 10]

/-- Witness workflow: a single `"SVC"` step. -/
def wfDemo : Workflow := Workflow.mk ["SVC"]

/-- Witness local-dataset resolution: `"iris"` resolves to `dsDemo`. -/
def ldDemo : String → Option Dataset := fun s => if s = "iris" then some dsDemo else none

/-- Witness registered experiment data for `do_experiments`. -/
def edDemo : ExperimentData := ExperimentData.mk "a description" none wfDemo "backend0"

/-- Witness for C5 at the concrete dataset `[1.5, 2.3, 0.9]` and the
single-step `"SVC"` classification workflow. -/
theorem C5_continuous_targets_reject_classifier_witness :
    (∃ est ∈ wfDemo.named_steps,
      create_experiment nmDemo ldDemo (CreatorState.mk [] []) (some "exp1") (some "a description")
        (some (DatasetArg.obj dsDemo)) (some wfDemo) (some "backend0") none =
      Except.ok (CreatorState.mk [] [], [LogMsg.warn "ExperimentCreator.create_experiment"
        ("Estimator " ++ est ++ " cannot work on continuous data. Experiment will be discarded")])) ∧
    (∃ ests, ests ≠ [] ∧
      do_experiment_dataset nmDemo ldDemo edDemo "exp1" "iris" =
      Except.ok (DoOutcome.skipped, ests.map (fun est => LogMsg.warn "ExperimentCreator.do_experiments"
        ("Estimator " ++ est ++ " cannot work on continuous data.This dataset will be disregarded")))) :=
  C5_continuous_targets_reject_classifier nmDemo ldDemo (CreatorState.mk [] [])
    "exp1" "a description" "backend0" wfDemo dsDemo none edDemo "iris"
    (by simp [dsDemo]) (by decide)
    (by intro est hm; simp [wfDemo] at hm; subst hm; rfl)
    ⟨"SVC", by simp [wfDemo], EstInfo.mk (some "Classification"), rfl, rfl⟩
    rfl rfl

/-- C6: the claim says `get_for` returns the spec registered under the
component's identity and never raises.  The code tests `hasattr(self.map,
identifier)`, i.e. looks for a dict *attribute*, which is false for an
ordinary registered key, so the registered spec is never returned (the empty
dict is returned instead); and for a non-string component id `hasattr`
raises `TypeError`. -/
theorem C6_parameter_map_get_ignores_registration :
    ParameterMap.get_for demoParameterMap (PyId.str "comp1") =
      Except.ok (some (ParamSpec.pdict [])) ∧
    dictGet demoParameterMap.map (PyId.str "comp1") = some comp1Spec ∧
    comp1Spec ≠ ParamSpec.pdict [] ∧
    ParameterMap.get demoParameterMap (PyId.other 7) =
      Except.error (PyErr.typeError "hasattr(): attribute name must be string") :=
  ⟨rfl, rfl, by intro h; simp [comp1Spec] at h, rfl⟩

/-- C7: the claim says expanding `{}` yields one empty combination flagged
non-branching, and that `GridSearch.call` computes `branch = (size > 1)`.
`create_combinations({})` does produce a generator yielding exactly the
empty tuple (and an empty name list), but it is an `itertools.product`
generator, not a list, so `len(grid)` in `GridSearch.call` raises
`TypeError`: the `branch` flag is never computed and no
`HyperParameterSearch` is constructed. -/
theorem C7_call_len_of_generator_raises :
    create_combinations [] = Except.ok (ProductObj.mk [[]], []) ∧
    GridSearch.call (ParameterMap.mk []) (PyId.str "c1") =
      Except.error (PyErr.typeError "object of type itertools.product has no len()") :=
  ⟨rfl, rfl⟩

/-- C8: a second `create_experiment` call with an already-registered name
(complete arguments, and a dataset that does not trigger the classifier
guard) is rejected: two error messages are logged, no exception is raised,
and the registries — in particular the first experiment's registered data —
are unchanged.  Since `_experiments` is a dict, names remain unique. -/
theorem C8_duplicate_experiment_name_rejected (nm : NameMappings)
    (localData : String → Option Dataset) (st : CreatorState) (n desc be : String)
    (wf : Workflow) (ps : Option ParamsV) (ed : ExperimentData) (dsArg : Option DatasetArg)
    (hreg : dictGet st.experiments (some n) = some ed)
    (hds : dsArg = none ∨ ∃ d, dsArg = some (DatasetArg.obj d) ∧ np_all_integral d.targets = true) :
    create_experiment nm localData st (some n) (some desc) dsArg (some wf) (some be) ps =
      Except.ok (st,
        [LogMsg.error "ExperimentCreator.create_experiment" "Error creating experiment",
         LogMsg.error "ExperimentCreator.create_experiment"
           ("Experiment name: " ++ n ++ " already present. Experiment name should be unique")]) ∧
    dictGet st.experiments (some n) = some ed := by
  refine ⟨?_, hreg⟩
  rcases hds with hnone | ⟨d, hobj, hint⟩
  · subst hnone
    simp [create_experiment, hreg, pyJoinOpt, Except.map, Bind.bind, Except.bind,
      String.append_assoc, String.append_empty]
  · subst hobj
    simp [create_experiment, hreg, hint, pyJoinOpt, Except.map, Bind.bind, Except.bind,
      String.append_assoc, String.append_empty]

/-- The registry state after a successful creation of `"exp1"`, used as the
starting state of the C8 witness. -/
def stDemo : CreatorState := CreatorState.mk [(some "exp1", edDemo)] []

/-- Witness for C8: re-creating `"exp1"` against `stDemo` is rejected and the
registry is unchanged. -/
theorem C8_duplicate_experiment_name_rejected_witness :
    create_experiment nmDemo ldDemo stDemo (some "exp1") (some "another description")
      none (some wfDemo) (some "backend1") none =
      Except.ok (stDemo,
        [LogMsg.error "ExperimentCreator.create_experiment" "Error creating experiment",
         LogMsg.error "ExperimentCreator.create_experiment"
           ("Experiment name: " ++ "exp1" ++ " already present. Experiment name should be unique")]) ∧
    dictGet stDemo.experiments (some "exp1") = some edDemo :=
  C8_duplicate_experiment_name_rejected nmDemo ldDemo stDemo "exp1" "another description"
    "backend1" wfDemo none edDemo none rfl (Or.inl rfl)

/-- C9: the claim says every configuration error (missing description,
workflow or backend, for any `name` including `None`) is reported via the
logger and `None` is returned, never raising.  With `name=None` and a
missing description the code evaluates
`''.join(['Description is missing for experiment:', None])`, which raises
`TypeError` to the caller (and a missing workflow alone returns `None`
without any report). -/
theorem C9_missing_description_none_name_raises :
    create_experiment nmDemo ldDemo (CreatorState.mk [] [])
      none none none (some wfDemo) (some "backend0") none =
      Except.error (PyErr.typeError "sequence item: expected str instance, NoneType found") := rfl

/-- C10: `IBaseApp.get` invokes each backend's `get` but discards every
result and returns `None`, even when some backend holds an entity under the
requested id. -/
theorem C10_base_app_get_returns_none (backends : List AppBackend) (id : String)
    (entity : List (String × String)) (b : AppBackend)
    (_hb : b ∈ backends) (_hget : b.get id = some entity) :
    IBaseApp.get backends id = none := rfl

/-- A backend that holds an entity under id `"id1"`, for the C10 witness. -/
def backendDemo : AppBackend :=
  AppBackend.mk (fun i => if i = "id1" then some [("k", "v")] else none)

/-- Witness for C10: even though `backendDemo` holds an entity under
`"id1"`, the app facade's `get` returns `None`. -/
theorem C10_base_app_get_returns_none_witness :
    IBaseApp.get [backendDemo] "id1" = none :=
  C10_base_app_get_returns_none [backendDemo] "id1" [("k", "v")] backendDemo
    (by simp) rfl
